import Mathlib

/-!
Verification of the file-registry subsystem of the TelegramDrive repository.

The definitions below are a shallow embedding of the Python source:
  - `src/storage/database.py` (class DatabaseManager),
  - `src/services/file_manager.py` (class FileManager),
  - `src/bot/handlers.py` (process_file_upload),
  - `src/bot/commands.py` (download),
  - `src/utils/helpers.py` (clean_filename, parse_file_info),
  - `src/config.py` (MAX_FILE_SIZE).

SQLite connection semantics are modelled explicitly: a connection holds the
committed database plus a pending view; `execute` mutates only the pending
view, `commit` publishes it, and closing the connection (the end of the
`async with aiosqlite.connect(...)` block) discards whatever was not
committed, exactly as sqlite3 rolls back uncommitted changes on close.
-/

namespace TDrive

/-- Maximum file size in bytes: `MAX_FILE_SIZE = 5 * 1024 * 1024 * 1024`
(src/config.py line 32). -/
def MAX_FILE_SIZE : Nat := 5 * 1024 * 1024 * 1024

/-- One row of the `files` table (src/storage/database.py lines 28-45).
Column defaults from the schema: `download_count` 0, `is_private` 0,
`is_deleted` 0. -/
structure FileRecord where
  file_id : String
  filename : String
  file_size : Nat
  file_type : String
  mime_type : Option String
  message_id : Int
  channel_id : String
  user_id : Option Int
  download_count : Nat
  google_drive_link : Option String
  is_private : Bool
  is_deleted : Bool
deriving DecidableEq

/-- One row of the `user_sessions` table (src/storage/database.py lines
62-73), restricted to the counter columns the claims are about. Column
defaults: all counters 0. -/
structure UserSession where
  user_id : Int
  total_uploads : Nat
  total_downloads : Nat
  storage_used : Nat
deriving DecidableEq

/-- The persisted database state: the `files` and `user_sessions` tables. -/
structure DB where
  files : List FileRecord
  sessions : List UserSession
deriving DecidableEq

/-- An open sqlite connection: the committed state plus the pending
(uncommitted) view seen by statements executed on this connection. -/
structure Conn where
  committed : DB
  pending : DB
deriving DecidableEq

/-- Opening a connection: `aiosqlite.connect(self.db_path)`. -/
def Conn.start (db : DB) : Conn := ⟨db, db⟩

/-- `await db.commit()`: publish the pending changes. -/
def Conn.commit (c : Conn) : Conn := ⟨c.pending, c.pending⟩

/-- Closing the connection (leaving the `async with` block): uncommitted
changes are rolled back; only the committed state survives. -/
def Conn.close (c : Conn) : DB := c.committed

/-- `DatabaseManager._update_user_stats` (src/storage/database.py lines
280-304): `INSERT OR IGNORE INTO user_sessions (user_id) VALUES (?)`
followed by an `UPDATE` adding the increments. Both statements run on the
given open connection and are NOT committed here. -/
def updateUserStats (c : Conn) (uid : Int) (upInc dlInc stInc : Nat) : Conn :=
  let withRow :=
    if c.pending.sessions.any (fun s => s.user_id = uid) then c.pending.sessions
    else c.pending.sessions ++ [⟨uid, 0, 0, 0⟩]
  let updated := withRow.map (fun s =>
    if s.user_id = uid then
      { s with
          total_uploads := s.total_uploads + upInc
          total_downloads := s.total_downloads + dlInc
          storage_used := s.storage_used + stInc }
    else s)
  { c with pending := { c.pending with sessions := updated } }

/-- `DatabaseManager.insert_file` (src/storage/database.py lines 100-135):
`INSERT INTO files ...` (raises on a `file_id` UNIQUE violation, in which
case nothing was committed and the exception is re-raised), then
`await db.commit()`, then — only if `user_id` is truthy —
`_update_user_stats(db, user_id, upload_increment=1,
storage_increment=file_size)` on the same connection, after which the
connection closes without any further commit. -/
def insertFile (db : DB) (file_id filename : String) (file_size : Nat)
    (file_type : String) (message_id : Int) (channel_id : String)
    (user_id : Option Int) (mime_type : Option String)
    (google_drive_link : Option String) (is_private : Bool) :
    Except String DB :=
  let c := Conn.start db
  if c.pending.files.any (fun f => f.file_id = file_id) then
    Except.error "UNIQUE constraint failed: files.file_id"
  else
    let row : FileRecord :=
      ⟨file_id, filename, file_size, file_type, mime_type, message_id,
        channel_id, user_id, 0, google_drive_link, is_private, false⟩
    let c1 := { c with pending := { c.pending with files := c.pending.files ++ [row] } }
    let c2 := c1.commit
    let c3 :=
      match user_id with
      | some uid => if uid = 0 then c2 else updateUserStats c2 uid 1 0 file_size
      | none => c2
    Except.ok c3.close

/-- `DatabaseManager.get_file_by_id` (src/storage/database.py lines
137-151): `SELECT * FROM files WHERE file_id = ? AND is_deleted = 0`,
`fetchone`. -/
def getFileById (db : DB) (file_id : String) : Option FileRecord :=
  db.files.find? (fun f => f.file_id = file_id && !f.is_deleted)

/-- `DatabaseManager.update_download_count` (src/storage/database.py lines
153-169): `UPDATE files SET download_count = download_count + 1 WHERE
file_id = ?`, then — if `user_id` is truthy — `_update_user_stats(db,
user_id, download_increment=1)`, then `await db.commit()` (the commit
comes after the stats update, so both changes are published). -/
def updateDownloadCount (db : DB) (file_id : String) (user_id : Option Int) : DB :=
  let c := Conn.start db
  let c1 := { c with pending := { c.pending with files := c.pending.files.map (fun f =>
    if f.file_id = file_id then { f with download_count := f.download_count + 1 } else f) } }
  let c2 :=
    match user_id with
    | some uid => if uid = 0 then c1 else updateUserStats c1 uid 0 1 0
    | none => c1
  c2.commit.close

/-- `DatabaseManager.delete_file` (src/storage/database.py lines 189-202):
`UPDATE files SET is_deleted = 1 WHERE file_id = ?`, commit, and return
`cursor.rowcount > 0`; sqlite counts every row matched by the WHERE
clause, whether or not `is_deleted` already was 1. -/
def dbDeleteFile (db : DB) (file_id : String) : DB × Bool :=
  let matched := db.files.countP (fun f => f.file_id = file_id)
  let files2 := db.files.map (fun f =>
    if f.file_id = file_id then { f with is_deleted := true } else f)
  (⟨files2, db.sessions⟩, decide (0 < matched))

/-- `FileManager.delete_file` (src/services/file_manager.py lines 123-142):
`get_file_info` first (which is `get_file_by_id`); return False if the
file is absent or already soft-deleted, otherwise run the database soft
delete and return True. -/
def fileManagerDeleteFile (db : DB) (file_id : String) : DB × Bool :=
  match getFileById db file_id with
  | none => (db, false)
  | some _ => ((dbDeleteFile db file_id).1, true)

/-- `UserSession` lookup by primary key, for stating properties about a
user's counters. -/
def getSession (db : DB) (uid : Int) : Option UserSession :=
  db.sessions.find? (fun s => s.user_id = uid)

/-- A loosely-typed incoming file object as the handlers see it
(telegram Document/PhotoSize/...): `file_id` always present; `file_name`
and `file_size` may be absent, read via `getattr(file_obj, ..., default)`
(src/bot/handlers.py lines 36-37). -/
structure FileObj where
  tg_file_id : String
  file_name : Option String
  file_size : Option Nat
deriving DecidableEq

/-- A message posted to the Telegram storage channel by
`FileManager.store_file_in_channel` (src/services/file_manager.py lines
17-81): the channel assigns the message id; the bot records
`stored_message.message_id` and `stored_message.chat.id`. -/
structure ChannelMsg where
  message_id : Int
  chat_id : String
  tg_file_id : String
deriving DecidableEq

/-- Outcome of `process_file_upload` as surfaced to the user
(src/bot/handlers.py): the file-too-large reply (lines 40-47), the
success reply carrying the file id (lines 94-116), or the generic
"Upload Failed" reply of the outer `except` (lines 125-130). -/
inductive UploadOutcome where
  | rejectedTooLarge
  | success (file_id : String)
  | uploadFailed
deriving DecidableEq

/-- Final state and outcome of one `process_file_upload` invocation. -/
structure UploadResult where
  db : DB
  channel : List ChannelMsg
  outcome : UploadOutcome
deriving DecidableEq

/-- `process_file_upload` (src/bot/handlers.py lines 32-131):
size and name are probed with `getattr` fallbacks (`file_size` defaults
to 0, `file_name` to `file_type + "_" + file_obj.file_id`); uploads with
`file_size > MAX_FILE_SIZE` are rejected before any channel post or
store write; otherwise the file is posted to the storage channel (the
channel assigns the next message id) and the metadata saved via
`FileManager.save_file_metadata` (src/services/file_manager.py lines
83-105), which calls `insert_file` WITHOUT a `user_id`; an insert failure
propagates to the outer `except`, which reports a generic upload failure
(the channel post has already happened by then). `generate_file_id` is
time-and-randomness dependent, so the generated id is a parameter. -/
def processFileUpload (db : DB) (channel : List ChannelMsg) (file_obj : FileObj)
    (file_type : String) (genId : String) (storageChannelId : String) :
    UploadResult :=
  let file_size := file_obj.file_size.getD 0
  let filename := file_obj.file_name.getD (file_type ++ "_" ++ file_obj.tg_file_id)
  if file_size > MAX_FILE_SIZE then
    ⟨db, channel, UploadOutcome.rejectedTooLarge⟩
  else
    let storedMessageId : Int := (channel.length : Int) + 1
    let msg : ChannelMsg := ⟨storedMessageId, storageChannelId, file_obj.tg_file_id⟩
    let channel2 := channel ++ [msg]
    match insertFile db genId filename file_size file_type storedMessageId storageChannelId
        none none none false with
    | Except.error _ => ⟨db, channel2, UploadOutcome.uploadFailed⟩
    | Except.ok db2 => ⟨db2, channel2, UploadOutcome.success genId⟩

/-- Outcome of the `/download` command as surfaced to the user
(src/bot/commands.py lines 89-134). -/
inductive DownloadOutcome where
  | missingArg
  | notFound (file_id : String)
  | delivered (filename : String) (file_size : Nat)
deriving DecidableEq

/-- `download` (src/bot/commands.py lines 89-134): no argument → usage
reply; otherwise `FileManager.get_file_info` (= `get_file_by_id`); absent
→ "File Not Found"; present → forward the stored message (a read of the
channel) and reply with name and size. The command performs no database
write. -/
def downloadCommand (db : DB) (args : List String) : DB × DownloadOutcome :=
  match args with
  | [] => (db, DownloadOutcome.missingArg)
  | fid :: _ =>
    match getFileById db fid with
    | none => (db, DownloadOutcome.notFound fid)
    | some r => (db, DownloadOutcome.delivered r.filename r.file_size)

/-- Characters removed by `clean_filename`'s regex
(src/utils/helpers.py line 92). -/
def invalidChar (ch : Char) : Bool :=
  ch = '<' || ch = '>' || ch = ':' || ch = '"' || ch = '/' || ch = '\\' ||
    ch = '|' || ch = '?' || ch = '*'

/-- Python `str.strip('. ')`: drop leading and trailing dots and spaces. -/
def stripDotSpace (l : List Char) : List Char :=
  ((l.dropWhile (fun ch => ch = '.' || ch = ' ')).reverse.dropWhile
    (fun ch => ch = '.' || ch = ' ')).reverse

/-- Python slice `l[:k]` for a possibly negative bound `k`. -/
def pySliceTo (l : List Char) (k : Int) : List Char :=
  if 0 ≤ k then l.take k.toNat else l.take (l.length - (-k).toNat)

/-- Python `filename.rsplit('.', 1)` when a dot is present: the part
before the last dot and the part after it. -/
def rsplitDot (l : List Char) : List Char × List Char :=
  let rl := l.reverse
  let ext := (rl.takeWhile (fun ch => ch ≠ '.')).reverse
  let name := ((rl.dropWhile (fun ch => ch ≠ '.')).drop 1).reverse
  (name, ext)

/-- `clean_filename` (src/utils/helpers.py lines 88-101): replace the
illegal characters by underscores, strip leading/trailing dots and
spaces, cap the length at 255 (preserving the extension), and fall back
to a fixed name when the result is empty. -/
def cleanFilename (filename : String) : String :=
  let replaced := filename.toList.map (fun ch => if invalidChar ch then '_' else ch)
  let stripped := stripDotSpace replaced
  let capped :=
    if stripped.length > 255 then
      if stripped.contains '.' then
        let p := rsplitDot stripped
        if p.2 ≠ [] then
          pySliceTo p.1 (250 - (p.2.length : Int)) ++ ('.' :: p.2)
        else p.1.take 255
      else stripped.take 255
    else stripped
  let result := String.mk capped
  if result = "" then "unnamed_file" else result

/-- K-fold iteration of `update_download_count` on the same file id and
acting user, for stating the download-counter property. -/
def iterDownload (fid : String) (uid : Option Int) : Nat → DB → DB
  | 0, db => db
  | Nat.succ k, db => iterDownload fid uid k (updateDownloadCount db fid uid)

/-! Helper lemmas. -/

theorem find?_append_none {α : Type} {p : α → Bool} {l1 l2 : List α}
    (h : l1.find? p = none) : (l1 ++ l2).find? p = l2.find? p := by
  rw [List.find?_append, h, Option.none_or]

theorem insertFile_ok {db : DB} {fid fn : String} {sz : Nat} {ft : String}
    {mid : Int} {cid : String} {uid : Option Int} {mt gl : Option String}
    {ip : Bool} {db2 : DB}
    (h : insertFile db fid fn sz ft mid cid uid mt gl ip = Except.ok db2) :
    db.files.any (fun f => f.file_id = fid) = false ∧
    db2 = ⟨db.files ++ [⟨fid, fn, sz, ft, mt, mid, cid, uid, 0, gl, ip, false⟩],
           db.sessions⟩ := by
  by_cases hc : db.files.any (fun f => f.file_id = fid)
  · simp [insertFile, Conn.start, hc] at h
  · refine ⟨by simpa using hc, ?_⟩
    cases uid with
    | none =>
      simp only [insertFile, Conn.start, hc, Bool.false_eq_true, if_false,
        Conn.commit, Conn.close, Except.ok.injEq] at h
      exact h.symm
    | some u =>
      by_cases hu : u = 0
      · subst hu
        simp only [insertFile, Conn.start, hc, Bool.false_eq_true, if_false,
          Conn.commit, Conn.close, Except.ok.injEq, reduceIte] at h
        exact h.symm
      · simp only [insertFile, Conn.start, hc, Bool.false_eq_true, if_false,
          Conn.commit, Conn.close, updateUserStats, hu, if_false,
          Except.ok.injEq, reduceIte] at h
        exact h.symm

theorem insertFile_ok_get {db : DB} {fid fn : String} {sz : Nat} {ft : String}
    {mid : Int} {cid : String} {uid : Option Int} {mt gl : Option String}
    {ip : Bool} {db2 : DB}
    (h : insertFile db fid fn sz ft mid cid uid mt gl ip = Except.ok db2) :
    getFileById db2 fid = some ⟨fid, fn, sz, ft, mt, mid, cid, uid, 0, gl, ip, false⟩ ∧
    db2.sessions = db.sessions := by
  obtain ⟨hany, rfl⟩ := insertFile_ok h
  refine ⟨?_, rfl⟩
  rw [getFileById]
  have hnone : db.files.find? (fun f => f.file_id = fid && !f.is_deleted) = none := by
    rw [List.find?_eq_none]
    intro f hf
    have := (List.any_eq_false.mp hany) f hf
    simp only [decide_eq_true_eq] at this
    simp [this]
  rw [find?_append_none hnone]
  simp [List.find?]

theorem processFileUpload_success {db : DB} {channel : List ChannelMsg}
    {file_obj : FileObj} {file_type genId scid fid : String}
    (h : (processFileUpload db channel file_obj file_type genId scid).outcome =
      UploadOutcome.success fid) :
    fid = genId ∧
    insertFile db genId (file_obj.file_name.getD (file_type ++ "_" ++ file_obj.tg_file_id))
        (file_obj.file_size.getD 0) file_type ((channel.length : Int) + 1) scid
        none none none false =
      Except.ok (processFileUpload db channel file_obj file_type genId scid).db := by
  by_cases hsz : file_obj.file_size.getD 0 > MAX_FILE_SIZE
  · simp [processFileUpload, hsz] at h
  · cases he : insertFile db genId
        (file_obj.file_name.getD (file_type ++ "_" ++ file_obj.tg_file_id))
        (file_obj.file_size.getD 0) file_type ((channel.length : Int) + 1) scid
        none none none false with
    | error e =>
      simp [processFileUpload, if_neg hsz, he] at h
    | ok db2 =>
      simp only [processFileUpload, if_neg hsz, he] at h ⊢
      simp only [UploadOutcome.success.injEq] at h
      exact ⟨h.symm, trivial⟩

/-! Claim theorems. -/

/-- Claim C1: every successful registration's returned file id resolves via
the store lookup to a record with the same filename, size and type as
registered. -/
theorem C1_register_resolve_roundtrip (db : DB) (channel : List ChannelMsg)
    (file_obj : FileObj) (file_type genId scid fid : String)
    (h : (processFileUpload db channel file_obj file_type genId scid).outcome =
      UploadOutcome.success fid) :
    ∃ r : FileRecord,
      getFileById (processFileUpload db channel file_obj file_type genId scid).db fid
        = some r ∧
      r.filename = file_obj.file_name.getD (file_type ++ "_" ++ file_obj.tg_file_id) ∧
      r.file_size = file_obj.file_size.getD 0 ∧
      r.file_type = file_type := by
  obtain ⟨rfl, hins⟩ := processFileUpload_success h
  obtain ⟨hget, -⟩ := insertFile_ok_get hins
  exact ⟨_, hget, rfl, rfl, rfl⟩

/-- Witness for C1 at a concrete registration. -/
theorem C1_witness :
    ((processFileUpload ⟨[], []⟩ [] ⟨"TG1", some "doc.pdf", some 1024⟩
        "document" "AB12CD34" "chan").outcome = UploadOutcome.success "AB12CD34") ∧
    (∃ r : FileRecord,
      getFileById (processFileUpload ⟨[], []⟩ [] ⟨"TG1", some "doc.pdf", some 1024⟩
          "document" "AB12CD34" "chan").db "AB12CD34" = some r ∧
      r.filename = (some "doc.pdf").getD ("document" ++ "_" ++ "TG1") ∧
      r.file_size = (some 1024).getD 0 ∧
      r.file_type = "document") :=
  ⟨by decide,
   C1_register_resolve_roundtrip ⟨[], []⟩ [] ⟨"TG1", some "doc.pdf", some 1024⟩
     "document" "AB12CD34" "chan" "AB12CD34" (by decide)⟩

/-- Claim C2 (code bug): `insert_file` with a known owner commits the file
row but the owner's session update is executed after the commit and is
rolled back when the connection closes, so the committed state holds the
file row with no session counters at all — evaluated here at the failing
input. -/
theorem C2_insert_not_atomic_eval :
    insertFile ⟨[], []⟩ "F1" "a.txt" 100 "document" 1 "chan" (some 7) none none false
      = Except.ok ⟨[⟨"F1", "a.txt", 100, "document", none, 1, "chan", some 7,
          0, none, false, false⟩], []⟩ := rfl

/-- Claim C4: an upload whose declared size exceeds `MAX_FILE_SIZE` is
rejected with the file-too-large reply before any channel post or store
write; database and channel are returned unchanged. -/
theorem C4_oversize_rejected (db : DB) (channel : List ChannelMsg)
    (file_obj : FileObj) (file_type genId scid : String)
    (h : MAX_FILE_SIZE < file_obj.file_size.getD 0) :
    processFileUpload db channel file_obj file_type genId scid =
      ⟨db, channel, UploadOutcome.rejectedTooLarge⟩ := by
  simp [processFileUpload, gt_iff_lt, h]

/-- Witness for C4 at declared size `MAX_FILE_SIZE + 1`. -/
theorem C4_witness :
    MAX_FILE_SIZE < (some 5368709121 : Option Nat).getD 0 ∧
    processFileUpload ⟨[], []⟩ [] ⟨"TG2", some "big.bin", some 5368709121⟩
        "document" "ID9" "chan" =
      ⟨⟨[], []⟩, [], UploadOutcome.rejectedTooLarge⟩ :=
  ⟨by decide,
   C4_oversize_rejected ⟨[], []⟩ [] ⟨"TG2", some "big.bin", some 5368709121⟩
     "document" "ID9" "chan" (by decide)⟩

theorem getFileById_dbDelete (db : DB) (fid : String) :
    getFileById (dbDeleteFile db fid).1 fid = none := by
  simp only [dbDeleteFile, getFileById]
  rw [List.find?_eq_none]
  intro x hx
  simp only [List.mem_map] at hx
  obtain ⟨f, hf, rfl⟩ := hx
  by_cases hid : f.file_id = fid <;> simp [hid]

/-- Claim C6: `FileManager.delete_file` returns true exactly when a row
with the given id existed and was not already deleted; a second retire of
the same id returns false, and the lookup after either retire call yields
nothing. -/
theorem C6_soft_delete_idempotent (db : DB) (fid : String) :
    ((fileManagerDeleteFile db fid).2 = true ↔ (getFileById db fid).isSome = true) ∧
    getFileById (fileManagerDeleteFile db fid).1 fid = none ∧
    (fileManagerDeleteFile (fileManagerDeleteFile db fid).1 fid).2 = false ∧
    getFileById (fileManagerDeleteFile (fileManagerDeleteFile db fid).1 fid).1 fid
      = none := by
  cases hg : getFileById db fid with
  | none => simp [fileManagerDeleteFile, hg]
  | some r =>
    have h1 : getFileById (dbDeleteFile db fid).1 fid = none :=
      getFileById_dbDelete db fid
    simp [fileManagerDeleteFile, hg, h1]

/-- Claim C9: a file id that is absent or whose record is soft-deleted is
not returned by the lookup, and the download command reports not-found
while leaving the database unchanged. -/
theorem C9_lookup_excludes_deleted (db : DB) (fid : String)
    (h : ∀ f ∈ db.files, f.file_id = fid → f.is_deleted = true) :
    getFileById db fid = none ∧
    downloadCommand db [fid] = (db, DownloadOutcome.notFound fid) := by
  have hg : getFileById db fid = none := by
    rw [getFileById, List.find?_eq_none]
    intro f hf
    by_cases hid : f.file_id = fid
    · simp [hid, h f hf hid]
    · simp [hid]
  exact ⟨hg, by simp [downloadCommand, hg]⟩

/-- Database used by the C9 witness: a soft-deleted record with the probed
id `ZZZZZZZZ` plus an unrelated live record and one user session. -/
def dbC9 : DB :=
  ⟨[⟨"ZZZZZZZZ", "gone.txt", 3, "document", none, 1, "chan", none, 2, none, false, true⟩,
    ⟨"LIVE0001", "live.txt", 4, "document", none, 2, "chan", some 5, 0, none, false, false⟩],
   [⟨5, 1, 0, 4⟩]⟩

/-- Witness for C9 at the spec's scenario id `ZZZZZZZZ`. -/
theorem C9_witness :
    (∀ f ∈ dbC9.files, f.file_id = "ZZZZZZZZ" → f.is_deleted = true) ∧
    (getFileById dbC9 "ZZZZZZZZ" = none ∧
     downloadCommand dbC9 ["ZZZZZZZZ"] = (dbC9, DownloadOutcome.notFound "ZZZZZZZZ")) :=
  ⟨by decide, C9_lookup_excludes_deleted dbC9 "ZZZZZZZZ" (by decide)⟩

/-! Lemmas about the download counter machinery, for claim C3. -/

theorem downloadCommand_fst (db : DB) (args : List String) :
    (downloadCommand db args).1 = db := by
  cases args with
  | nil => rfl
  | cons fid rest => cases hg : getFileById db fid <;> simp [downloadCommand, hg]

theorem find?_map_eq {α : Type} (g : α → α) (p : α → Bool) (l : List α)
    (hp : ∀ x, p (g x) = p x) : (l.map g).find? p = (l.find? p).map g := by
  induction l with
  | nil => rfl
  | cons a t ih =>
    simp only [List.map_cons]
    cases hpa : p a
    · rw [List.find?_cons_of_neg _ (by rw [hp a, hpa]; simp),
        List.find?_cons_of_neg _ (by simp [hpa]), ih]
    · rw [List.find?_cons_of_pos _ (by rw [hp a]; exact hpa),
        List.find?_cons_of_pos _ hpa]
      rfl

theorem updateDownloadCount_files (db : DB) (fid : String) (uid : Option Int) :
    (updateDownloadCount db fid uid).files = db.files.map (fun f =>
      if f.file_id = fid then { f with download_count := f.download_count + 1 }
      else f) := by
  cases uid with
  | none => rfl
  | some u =>
    by_cases hu : u = 0
    · subst hu
      rfl
    · simp [updateDownloadCount, Conn.start, Conn.commit, Conn.close,
        updateUserStats, hu]

theorem updateDownloadCount_session (db : DB) (fid : String) (u : Int)
    (s : UserSession) (hu : u ≠ 0) (hs : getSession db u = some s) :
    getSession (updateDownloadCount db fid (some u)) u =
      some { s with total_downloads := s.total_downloads + 1 } := by
  have hps : s.user_id = u := by simpa using List.find?_some hs
  have hany : db.sessions.any (fun x => x.user_id = u) = true :=
    List.any_eq_true.mpr ⟨s, List.mem_of_find?_eq_some hs, by simp [hps]⟩
  have hsessions : (updateDownloadCount db fid (some u)).sessions =
      db.sessions.map (fun x => if x.user_id = u then
        { x with
            total_uploads := x.total_uploads + 0
            total_downloads := x.total_downloads + 1
            storage_used := x.storage_used + 0 }
        else x) := by
    simp [updateDownloadCount, Conn.start, Conn.commit, Conn.close,
      updateUserStats, hu, hany]
  rw [getSession, hsessions, find?_map_eq]
  · rw [getSession] at hs
    rw [hs]
    simp [hps]
  · intro x
    by_cases hx : x.user_id = u <;> simp [hx]

theorem iterDownload_spec (fid : String) (u : Int) (hu : u ≠ 0) :
    ∀ (K : Nat) (db : DB) (s : UserSession), getSession db u = some s →
      (iterDownload fid (some u) K db).files = db.files.map (fun f =>
        if f.file_id = fid then { f with download_count := f.download_count + K }
        else f) ∧
      getSession (iterDownload fid (some u) K db) u =
        some { s with total_downloads := s.total_downloads + K } := by
  intro K
  induction K with
  | zero =>
    intro db s hs
    constructor
    · have h0 : db.files.map (fun f =>
          if f.file_id = fid then { f with download_count := f.download_count + 0 }
          else f) = db.files.map id := by
        apply List.map_congr_left
        intro f hf
        by_cases hid : f.file_id = fid
        · rw [if_pos hid, Nat.add_zero]
          rfl
        · rw [if_neg hid]
          rfl
      rw [iterDownload, h0, List.map_id]
    · simpa using hs
  | succ k ih =>
    intro db s hs
    have hstep := updateDownloadCount_session db fid u s hu hs
    obtain ⟨ihf, ihs⟩ := ih (updateDownloadCount db fid (some u)) _ hstep
    have hit : iterDownload fid (some u) (k + 1) db =
        iterDownload fid (some u) k (updateDownloadCount db fid (some u)) := rfl
    constructor
    · rw [hit, ihf, updateDownloadCount_files, List.map_map]
      apply List.map_congr_left
      intro f hf
      simp only [Function.comp]
      by_cases hid : f.file_id = fid
      · have harith : f.download_count + 1 + k = f.download_count + (k + 1) := by omega
        simp [hid, harith]
      · simp [hid]
    · rw [hit, ihs]
      have harith : s.total_downloads + 1 + k = s.total_downloads + (k + 1) := by omega
      simp [harith]

/-- Database used by the C3 counterexample and witness: one live record
with id `ABC123` owned by user 5, whose session exists. -/
def dbC3 : DB :=
  ⟨[⟨"ABC123", "a.txt", 100, "document", none, 1, "chan", some 5, 0, none, false, false⟩],
   [⟨5, 1, 0, 100⟩]⟩

/-- Counterexample to claim C3: one successful download of `ABC123`
through the `/download` command leaves the database completely unchanged
— `download_count` is still 0 (the claim requires 1) and user 5's
`total_downloads` is still 0 — because the command never calls
`update_download_count`. -/
theorem C3_counterexample :
    (downloadCommand dbC3 ["ABC123"]).2 = DownloadOutcome.delivered "a.txt" 100 ∧
    (downloadCommand dbC3 ["ABC123"]).1 = dbC3 ∧
    (getFileById dbC3 "ABC123").map (fun r => r.download_count) = some 0 ∧
    getSession dbC3 5 = some ⟨5, 1, 0, 100⟩ := by
  decide

/-- Claim C3 amended: the `/download` command performs no database write at
all, so K successful downloads leave `download_count` and
`total_downloads` unchanged; the (never invoked)
`DatabaseManager.update_download_count`, called K times with a known
nonzero user whose session exists, increments that file's
`download_count` by K and the user's `total_downloads` by K. -/
theorem C3_amended_download_counters (db : DB) (args : List String) (fid : String)
    (u : Int) (s : UserSession) (K : Nat) (hu : u ≠ 0)
    (hs : getSession db u = some s) :
    (downloadCommand db args).1 = db ∧
    (iterDownload fid (some u) K db).files = db.files.map (fun f =>
      if f.file_id = fid then { f with download_count := f.download_count + K }
      else f) ∧
    getSession (iterDownload fid (some u) K db) u =
      some { s with total_downloads := s.total_downloads + K } := by
  obtain ⟨h1, h2⟩ := iterDownload_spec fid u hu K db s hs
  exact ⟨downloadCommand_fst db args, h1, h2⟩

/-- Witness for the amended C3 at K = 2 on `dbC3`. -/
theorem C3_witness :
    (5 : Int) ≠ 0 ∧ getSession dbC3 5 = some ⟨5, 1, 0, 100⟩ ∧
    ((downloadCommand dbC3 ["ABC123"]).1 = dbC3 ∧
     (iterDownload "ABC123" (some 5) 2 dbC3).files = dbC3.files.map (fun f =>
       if f.file_id = "ABC123" then { f with download_count := f.download_count + 2 }
       else f) ∧
     getSession (iterDownload "ABC123" (some 5) 2 dbC3) 5 =
       some { (⟨5, 1, 0, 100⟩ : UserSession) with
                total_downloads := (⟨5, 1, 0, 100⟩ : UserSession).total_downloads + 2 }) :=
  ⟨by decide, by decide,
   C3_amended_download_counters dbC3 ["ABC123"] "ABC123" 5 ⟨5, 1, 0, 100⟩ 2
     (by decide) (by decide)⟩

/-! Claims C5, C7, C8, C10. -/

/-- The C5 scenario registration: `report.pdf`, 1024 bytes, document,
performed on behalf of user 42 (whom the upload path never records). -/
def uploadC5 : UploadResult :=
  processFileUpload ⟨[], []⟩ [] ⟨"TG3", some "report.pdf", some 1024⟩
    "document" "ID5" "chan"

/-- Counterexample to claim C5: the scenario registration succeeds and the
record has `download_count = 0` and `is_deleted = false`, but no session
row for user 42 (or anyone) is created — `total_uploads = 1` and
`storage_used = 1024` fail because the upload path never passes the
uploader to `insert_file`. -/
theorem C5_counterexample :
    uploadC5.outcome = UploadOutcome.success "ID5" ∧
    (getFileById uploadC5.db "ID5").map (fun r =>
      (r.filename, r.file_size, r.file_type, r.download_count, r.is_deleted))
      = some ("report.pdf", 1024, "document", 0, false) ∧
    getSession uploadC5.db 42 = none ∧
    uploadC5.db.sessions = [] := by
  decide

/-- Claim C5 amended: the scenario registration produces a record with the
declared name, size and type, `download_count = 0`, `is_deleted = false`
and a NULL owner, and leaves the session table unchanged — user 42's
counters are not touched. -/
theorem C5_amended_registration (db : DB) (channel : List ChannelMsg)
    (tg genId scid fid : String)
    (h : (processFileUpload db channel ⟨tg, some "report.pdf", some 1024⟩
        "document" genId scid).outcome = UploadOutcome.success fid) :
    (∃ r : FileRecord,
      getFileById (processFileUpload db channel ⟨tg, some "report.pdf", some 1024⟩
          "document" genId scid).db fid = some r ∧
      r.filename = "report.pdf" ∧ r.file_size = 1024 ∧ r.file_type = "document" ∧
      r.download_count = 0 ∧ r.is_deleted = false ∧ r.user_id = none) ∧
    (processFileUpload db channel ⟨tg, some "report.pdf", some 1024⟩
        "document" genId scid).db.sessions = db.sessions := by
  obtain ⟨rfl, hins⟩ := processFileUpload_success h
  obtain ⟨hget, hsess⟩ := insertFile_ok_get hins
  exact ⟨⟨_, hget, rfl, rfl, rfl, rfl, rfl, rfl⟩, hsess⟩

/-- Witness for the amended C5 at the concrete scenario. -/
theorem C5_witness :
    uploadC5.outcome = UploadOutcome.success "ID5" ∧
    ((∃ r : FileRecord,
      getFileById uploadC5.db "ID5" = some r ∧
      r.filename = "report.pdf" ∧ r.file_size = 1024 ∧ r.file_type = "document" ∧
      r.download_count = 0 ∧ r.is_deleted = false ∧ r.user_id = none) ∧
     uploadC5.db.sessions = (⟨[], []⟩ : DB).sessions) :=
  ⟨by decide,
   C5_amended_registration ⟨[], []⟩ [] "TG3" "ID5" "chan" "ID5" (by decide)⟩

/-- Database used by the C7 counterexample and witness: a record already
occupying the id `COLLIDE1`. -/
def dbC7 : DB :=
  ⟨[⟨"COLLIDE1", "old.txt", 5, "document", none, 1, "chan", none, 0, none, false, false⟩],
   []⟩

/-- Counterexample to claim C7: when the freshly generated id collides with
an existing row, the registration fails at once with the generic
upload-failure outcome — a single collision does fail the registration,
with no regeneration and no retry. -/
theorem C7_counterexample :
    (processFileUpload dbC7 [] ⟨"TG7", some "new.txt", some 10⟩ "document"
        "COLLIDE1" "chan").outcome = UploadOutcome.uploadFailed ∧
    (processFileUpload dbC7 [] ⟨"TG7", some "new.txt", some 10⟩ "document"
        "COLLIDE1" "chan").db = dbC7 := by
  decide

/-- Claim C7 amended: one identifier is generated per registration and one
insertion is attempted; a collision makes the insert raise, the outer
handler reports the generic upload failure, and the store is left
unchanged — there is no retry and no identifier-exhausted error. -/
theorem C7_amended_no_retry (db : DB) (channel : List ChannelMsg)
    (file_obj : FileObj) (file_type genId scid : String)
    (hsz : file_obj.file_size.getD 0 ≤ MAX_FILE_SIZE)
    (hcol : db.files.any (fun f => f.file_id = genId) = true) :
    (processFileUpload db channel file_obj file_type genId scid).outcome
      = UploadOutcome.uploadFailed ∧
    (processFileUpload db channel file_obj file_type genId scid).db = db := by
  have hnot : ¬ (file_obj.file_size.getD 0 > MAX_FILE_SIZE) := by omega
  have he : insertFile db genId
      (file_obj.file_name.getD (file_type ++ "_" ++ file_obj.tg_file_id))
      (file_obj.file_size.getD 0) file_type ((channel.length : Int) + 1) scid
      none none none false
      = Except.error "UNIQUE constraint failed: files.file_id" := by
    simp [insertFile, Conn.start, hcol]
  constructor <;> simp [processFileUpload, if_neg hnot, he]

/-- Witness for the amended C7 on `dbC7`. -/
theorem C7_witness :
    (⟨"TG7", some "new.txt", some 10⟩ : FileObj).file_size.getD 0 ≤ MAX_FILE_SIZE ∧
    dbC7.files.any (fun f => f.file_id = "COLLIDE1") = true ∧
    ((processFileUpload dbC7 [] ⟨"TG7", some "new.txt", some 10⟩ "document"
        "COLLIDE1" "chan").outcome = UploadOutcome.uploadFailed ∧
     (processFileUpload dbC7 [] ⟨"TG7", some "new.txt", some 10⟩ "document"
        "COLLIDE1" "chan").db = dbC7) :=
  ⟨by decide, by decide,
   C7_amended_no_retry dbC7 [] ⟨"TG7", some "new.txt", some 10⟩ "document"
     "COLLIDE1" "chan" (by decide) (by decide)⟩

/-- An upload whose declared filename contains a character that
`clean_filename` would replace. -/
def uploadC8 : UploadResult :=
  processFileUpload ⟨[], []⟩ [] ⟨"TG8", some "a<b.txt", some 10⟩
    "document" "ID8" "chan"

/-- Counterexample to claim C8: the persisted filename is the raw declared
name `a<b.txt`, while its sanitized form per `clean_filename` is
`a_b.txt`; the two differ, so the stored name is not the sanitized one. -/
theorem C8_counterexample :
    (getFileById uploadC8.db "ID8").map (fun r => r.filename) = some "a<b.txt" ∧
    cleanFilename "a<b.txt" = "a_b.txt" ∧
    "a<b.txt" ≠ "a_b.txt" := by
  decide

/-- Claim C8 amended: the filename persisted by a successful registration
is exactly the raw declared filename; `clean_filename` exists in the
helpers but is never invoked on the upload path. -/
theorem C8_amended_raw_filename (db : DB) (channel : List ChannelMsg)
    (tg fn file_type genId scid fid : String) (sz : Option Nat)
    (h : (processFileUpload db channel ⟨tg, some fn, sz⟩ file_type genId scid).outcome
      = UploadOutcome.success fid) :
    (getFileById (processFileUpload db channel ⟨tg, some fn, sz⟩ file_type
        genId scid).db fid).map (fun r => r.filename) = some fn := by
  obtain ⟨rfl, hins⟩ := processFileUpload_success h
  obtain ⟨hget, -⟩ := insertFile_ok_get hins
  rw [hget]
  rfl

/-- Witness for the amended C8 at the `a<b.txt` upload. -/
theorem C8_witness :
    uploadC8.outcome = UploadOutcome.success "ID8" ∧
    (getFileById uploadC8.db "ID8").map (fun r => r.filename) = some "a<b.txt" :=
  ⟨by decide,
   C8_amended_raw_filename ⟨[], []⟩ [] "TG8" "a<b.txt" "document" "ID8" "chan"
     "ID8" (some 10) (by decide)⟩

/-- Claim C10: a file object with no `file_size` attribute is treated as
size 0, so the oversize check never rejects it; if the registration
succeeds the persisted `file_size` is 0, and the session table is in any
case unchanged (so any storage accounting would increase by 0). -/
theorem C10_missing_size_defaults_zero (db : DB) (channel : List ChannelMsg)
    (file_obj : FileObj) (file_type genId scid : String)
    (h : file_obj.file_size = none) :
    (processFileUpload db channel file_obj file_type genId scid).outcome
      ≠ UploadOutcome.rejectedTooLarge ∧
    (processFileUpload db channel file_obj file_type genId scid).db.sessions
      = db.sessions ∧
    ∀ fid, (processFileUpload db channel file_obj file_type genId scid).outcome
        = UploadOutcome.success fid →
      (getFileById (processFileUpload db channel file_obj file_type genId
          scid).db fid).map (fun r => r.file_size) = some 0 := by
  have hzero : file_obj.file_size.getD 0 = 0 := by rw [h]; rfl
  have hnot : ¬ (file_obj.file_size.getD 0 > MAX_FILE_SIZE) := by
    rw [hzero]
    exact Nat.not_lt_zero _
  refine ⟨?_, ?_, ?_⟩
  · cases he : insertFile db genId
        (file_obj.file_name.getD (file_type ++ "_" ++ file_obj.tg_file_id))
        (file_obj.file_size.getD 0) file_type ((channel.length : Int) + 1) scid
        none none none false with
    | error e => simp [processFileUpload, if_neg hnot, he]
    | ok db2 => simp [processFileUpload, if_neg hnot, he]
  · cases he : insertFile db genId
        (file_obj.file_name.getD (file_type ++ "_" ++ file_obj.tg_file_id))
        (file_obj.file_size.getD 0) file_type ((channel.length : Int) + 1) scid
        none none none false with
    | error e => simp [processFileUpload, if_neg hnot, he]
    | ok db2 =>
      obtain ⟨-, hsess⟩ := insertFile_ok_get he
      simp [processFileUpload, if_neg hnot, he, hsess]
  · intro fid hfid
    obtain ⟨rfl, hins⟩ := processFileUpload_success hfid
    obtain ⟨hget, -⟩ := insertFile_ok_get hins
    rw [hget]
    simp [hzero]

/-- Witness for C10 at an upload whose file object lacks a size. -/
theorem C10_witness :
    (⟨"TG10", some "nosize.bin", none⟩ : FileObj).file_size = none ∧
    (processFileUpload ⟨[], []⟩ [] ⟨"TG10", some "nosize.bin", none⟩ "document"
        "ID10" "chan").outcome ≠ UploadOutcome.rejectedTooLarge ∧
    (processFileUpload ⟨[], []⟩ [] ⟨"TG10", some "nosize.bin", none⟩ "document"
        "ID10" "chan").db.sessions = (⟨[], []⟩ : DB).sessions ∧
    (getFileById (processFileUpload ⟨[], []⟩ [] ⟨"TG10", some "nosize.bin", none⟩
        "document" "ID10" "chan").db "ID10").map (fun r => r.file_size) = some 0 :=
  ⟨rfl,
   (C10_missing_size_defaults_zero ⟨[], []⟩ [] ⟨"TG10", some "nosize.bin", none⟩
     "document" "ID10" "chan" rfl).1,
   (C10_missing_size_defaults_zero ⟨[], []⟩ [] ⟨"TG10", some "nosize.bin", none⟩
     "document" "ID10" "chan" rfl).2.1,
   (C10_missing_size_defaults_zero ⟨[], []⟩ [] ⟨"TG10", some "nosize.bin", none⟩
     "document" "ID10" "chan" rfl).2.2 "ID10" (by decide)⟩

end TDrive
